import Mathlib

/-!
# Zero-Shot ZK Fog-of-War — verification of the session engine

Shallow embedding of the game client in `src/App.tsx` (the file named
`main.tsx` in this snapshot): the `gameReducer` pure transition function,
the derived selectors (`zkBusy`, `canFire`), the voice-command parser
(`parseVoice`), and the asynchronous handler layer (`handleFire`,
`handlePlace`, `handleAbort`, the stake-deduction step of
`handleStartGame`) as explicit state-passing functions over a `System`
record.

The source reducer reads the ambient clock (`Date.now()` inside
`ZK_WITNESS_BEGIN` / `ZK_VERIFY_SUCCESS` / `ZK_VERIFY_FAILURE`, and
`nowts()` inside every `mkLog` call).  The embedding makes that input
explicit: `gameReducer` takes a `Clock` argument holding the millisecond
reading and the formatted time string, and the handler layer threads one
clock per dispatch site.
-/

namespace ZkFog

/-- `type CellKind` — visual/interaction state of one grid cell. -/
inductive CellKind
  | fog | empty | unit | hit | miss | targeted
deriving DecidableEq

/-- `type GamePhase` — setup → placement → battle → ended. -/
inductive GamePhase
  | setup | placement | battle | ended
deriving DecidableEq

/-- `type WinnerKind` — 'you' | 'foe'; the TS `null` case is `Option.none`. -/
inductive WinnerKind
  | you | foe
deriving DecidableEq

/-- `type ZKState` — the per-fire proof pipeline stage enum. -/
inductive ZKState
  | IDLE
  | WITNESS_GENERATION
  | CIRCUIT_COMPILATION
  | PROOF_GENERATION
  | ON_CHAIN_VERIFICATION
  | VERIFICATION_SUCCESS
  | VERIFICATION_FAILURE
deriving DecidableEq

/-- `interface ZKProofContext`. -/
structure ZKProofContext where
  state : ZKState
  targetIndex : Int
  witnessHex : String
  proofHex : String
  verifyTxHash : String
  startedAt : Nat
  resolvedAt : Nat
  errorMsg : String
  isHit : Bool
deriving DecidableEq

/-- `type LogType`. -/
inductive LogType
  | sys | zk | fire | hit | miss | wallet | warn
deriving DecidableEq

/-- `interface LogEntry`. -/
structure LogEntry where
  ts : String
  msg : String
  t : LogType
deriving DecidableEq

/-- `type TxType` — ledger record types. -/
inductive TxType
  | deposit | withdraw | stake | win | loss | refund
deriving DecidableEq

/-- Transaction status field. -/
inductive TxStatus
  | confirmed | pending
deriving DecidableEq

/-- `interface TxRecord` — one entry in a user's transaction history. -/
structure TxRecord where
  id : String
  type : TxType
  amount : Nat
  ts : String
  status : TxStatus
  label : String
  sessionId : Option Nat
deriving DecidableEq

/-- `interface GameState` — the complete game session state. -/
structure GameState where
  phase : GamePhase
  sid : Nat
  stake : Nat
  myGrid : List CellKind
  foeGrid : List CellKind
  foeUnit : Int
  myUnit : Int
  myTurn : Bool
  shots : Nat
  hits : Nat
  winner : Option WinnerKind
  txIds : List String
  log : List LogEntry
  stakeDeducted : Bool
  zkProof : ZKProofContext
deriving DecidableEq

/-- `interface UserProfile` — Auth0-derived profile with local stats. -/
structure UserProfile where
  sub : String
  username : String
  email : String
  emailVerified : Bool
  walletAddress : String
  balance : Int
  wins : Nat
  losses : Nat
  totalStaked : Nat
  txHistory : List TxRecord
deriving DecidableEq

/-- The ambient clock the source reads through `Date.now()` (`now`, in
milliseconds) and `nowts()` (`ts`, the formatted time string). -/
structure Clock where
  now : Nat
  ts : String
deriving DecidableEq

/-- `const GRID = 6`. -/
def GRID : Nat := 6

/-- `const CELLS = GRID * GRID` (36). -/
def CELLS : Nat := GRID * GRID

/-- `coord(i)` — 0-based cell index to chess-style label ("A1"…"F6"). -/
def coord (i : Nat) : String :=
  String.singleton (Char.ofNat (65 + i % GRID)) ++ toString (i / GRID + 1)

/-- `mkLog(msg, t)` with the clock made explicit. -/
def mkLog (c : Clock) (msg : String) (t : LogType) : LogEntry :=
  { ts := c.ts, msg := msg, t := t }

/-- `blankZK()` — fresh (blank) ZK proof context. -/
def blankZK : ZKProofContext :=
  { state := .IDLE, targetIndex := -1, witnessHex := "", proofHex := "",
    verifyTxHash := "", startedAt := 0, resolvedAt := 0, errorMsg := "",
    isHit := false }

/-- `blankGame()` — fresh (blank) game state, used on `GAME_RESET`. -/
def blankGame : GameState :=
  { phase := .setup, sid := 0, stake := 0,
    myGrid := List.replicate CELLS .empty,
    foeGrid := List.replicate CELLS .fog,
    foeUnit := -1, myUnit := -1, myTurn := true, shots := 0, hits := 0,
    winner := none, txIds := [], log := [], stakeDeducted := false,
    zkProof := blankZK }

/-- `log.slice(-100)` — the last (at most) 100 entries. -/
def sliceLast100 (l : List LogEntry) : List LogEntry :=
  l.drop (l.length - 100)

/-- `appendLog(s, ...entries)` — caps history at 100 lines, then appends. -/
def appendLog (s : GameState) (entries : List LogEntry) : GameState :=
  { s with log := sliceLast100 s.log ++ entries }

/-- `type GameAction` — the discriminated union of every reducer action. -/
inductive GameAction
  | GAME_INIT (sid stake : Nat) (foeUnit : Int)
  | GAME_READY (txId : String)
  | UNIT_PLACE (index : Nat)
  | BATTLE_BEGIN (myTurn : Bool)
  | ZK_WITNESS_BEGIN (index : Nat)
  | ZK_WITNESS_DONE (witnessHex : String)
  | ZK_CIRCUIT_BEGIN
  | ZK_PROOF_BEGIN
  | ZK_PROOF_DONE (proofHex : String)
  | ZK_VERIFY_BEGIN
  | ZK_VERIFY_SUCCESS (isHit : Bool) (verifyTxHash : String)
  | ZK_VERIFY_FAILURE (errorMsg : String)
  | ZK_RESET
  | SHOT_APPLY (index : Nat) (isHit : Bool)
  | ENEMY_STRIKE (index : Nat) (isHit : Bool)
  | GAME_OVER (winner : Option WinnerKind) (txId : String)
  | LOG_APPEND (payload : List LogEntry)
  | GAME_RESTORE (payload : GameState)
  | GAME_RESET
deriving DecidableEq

/-- Two-digit zero padding, for the seconds string below. -/
def pad2 (n : Nat) : String :=
  if n < 10 then "0" ++ toString n else toString n

/-- Models `((ms) / 1000).toFixed(2)` from the `ZK_VERIFY_SUCCESS` log
line (duration in seconds with two decimals, rounded to nearest). -/
def durString (ms : Nat) : String :=
  let c := (ms + 5) / 10
  toString (c / 100) ++ "." ++ pad2 (c % 100)

/-- `gameReducer(state, action)` — the central pure reducer, with the
ambient clock made an explicit argument. -/
def gameReducer (c : Clock) (state : GameState) (action : GameAction) : GameState :=
  match action with
  | .GAME_INIT sid stake foeUnit =>
      appendLog { blankGame with phase := .setup, sid := sid, stake := stake, foeUnit := foeUnit }
        [mkLog c ("Session #" ++ toString sid ++ " initialised | stake: " ++ toString stake ++ " XLM") .sys,
         mkLog c "Connecting to Stellar Hub…" .sys]
  | .GAME_READY txId =>
      appendLog { state with phase := .placement, stakeDeducted := true, txIds := [txId] }
        [mkLog c ("Stake TX " ++ txId.take 12 ++ "… confirmed ✓") .wallet,
         mkLog c "ZK proving key loaded (Noir UltraHonk)" .zk,
         mkLog c "Place your unit on the grid." .sys]
  | .UNIT_PLACE index =>
      appendLog { state with myGrid := state.myGrid.set index .unit, myUnit := Int.ofNat index }
        [mkLog c ("Unit placed at " ++ coord index ++ " — ZK commitment building…") .zk]
  | .BATTLE_BEGIN myTurn =>
      appendLog { state with phase := .battle, myTurn := myTurn }
        [mkLog c "On-chain commitment confirmed ✓" .zk,
         mkLog c "Opponent committed (ZK-hidden)" .sys,
         mkLog c "━━━ BATTLE START ━━━" .sys,
         mkLog c (if myTurn then "▶ YOUR TURN — click or say \"Fire [col] [row]\"" else "… Waiting for opponent…") .sys]
  | .ZK_WITNESS_BEGIN index =>
      appendLog
        { state with
          myTurn := false
          zkProof := { blankZK with
                       state := .WITNESS_GENERATION
                       targetIndex := Int.ofNat index
                       startedAt := c.now } }
        [mkLog c ("Firing at " ++ coord index ++ "…") .fire,
         mkLog c "[ ZK ] Building witness (private: pos + Poseidon salt)…" .zk]
  | .ZK_WITNESS_DONE witnessHex =>
      if state.zkProof.state ≠ .WITNESS_GENERATION then state else
      appendLog { state with zkProof := { state.zkProof with state := .CIRCUIT_COMPILATION, witnessHex := witnessHex } }
        [mkLog c ("[ ZK ] Witness ready: 0x" ++ witnessHex.take 16 ++ "…") .zk,
         mkLog c "[ ZK ] Compiling Noir UltraHonk circuit…" .zk]
  | .ZK_CIRCUIT_BEGIN =>
      if state.zkProof.state ≠ .CIRCUIT_COMPILATION then state else
      appendLog state [mkLog c "[ ZK ] Circuit compiled — beginning proof generation…" .zk]
  | .ZK_PROOF_BEGIN =>
      appendLog { state with zkProof := { state.zkProof with state := .PROOF_GENERATION } }
        [mkLog c "[ ZK ] BN254 pairing — generating UltraHonk proof…" .zk]
  | .ZK_PROOF_DONE proofHex =>
      if state.zkProof.state ≠ .PROOF_GENERATION then state else
      appendLog { state with zkProof := { state.zkProof with state := .ON_CHAIN_VERIFICATION, proofHex := proofHex } }
        [mkLog c ("[ ZK ] Proof: 0x" ++ proofHex.take 16 ++ "…") .zk]
  | .ZK_VERIFY_BEGIN =>
      appendLog state [mkLog c "[ ZK ] hub.verify_shot() → Soroban…" .zk]
  | .ZK_VERIFY_SUCCESS isHit verifyTxHash =>
      if state.zkProof.state ≠ .ON_CHAIN_VERIFICATION then state else
      appendLog
        { state with
          zkProof := { state.zkProof with
                       state := .VERIFICATION_SUCCESS
                       isHit := isHit
                       verifyTxHash := verifyTxHash
                       resolvedAt := c.now } }
        [mkLog c ("[ ZK ] Verified ✓  (" ++ durString (c.now - state.zkProof.startedAt) ++ "s) — "
                  ++ (if isHit then "IMPACT CONFIRMED" else "miss confirmed")) .zk,
         mkLog c ("Verify TX: " ++ verifyTxHash.take 12 ++ "…") .wallet]
  | .ZK_VERIFY_FAILURE errorMsg =>
      appendLog
        { state with
          zkProof := { state.zkProof with
                       state := .VERIFICATION_FAILURE
                       errorMsg := errorMsg
                       resolvedAt := c.now }
          myTurn := true }
        [mkLog c ("[ ZK ] Verification failed: " ++ errorMsg) .warn,
         mkLog c "Turn restored — retry allowed." .warn]
  | .ZK_RESET =>
      { state with zkProof := blankZK, myTurn := true }
  | .SHOT_APPLY index isHit =>
      appendLog
        { state with
          foeGrid := state.foeGrid.set index (if isHit then .hit else .miss)
          shots := state.shots + 1
          hits := state.hits + (if isHit then 1 else 0) }
        [mkLog c (if isHit then "★ DIRECT HIT at " ++ coord index ++ "!" else "Miss at " ++ coord index ++ ".")
           (if isHit then .hit else .miss)]
  | .ENEMY_STRIKE index isHit =>
      appendLog
        { state with
          myGrid := state.myGrid.set index (if isHit then .hit else .miss)
          myTurn := !isHit }
        [mkLog c ("Enemy fires " ++ coord index ++ "… " ++ (if isHit then "★ YOUR UNIT HIT!" else "missed."))
           (if isHit then .hit else .miss)]
  | .GAME_OVER winner txId =>
      appendLog { state with phase := .ended, winner := winner, txIds := state.txIds ++ [txId] }
        [mkLog c ("hub.end_game(player1_won=" ++ (if winner = some .you then "true" else "false")
                  ++ ") TX: " ++ txId.take 12 ++ "…") .wallet,
         mkLog c (if winner = some .you then "★ MISSION ACCOMPLISHED" else "✕ MISSION FAILED") .sys]
  | .LOG_APPEND payload =>
      { state with log := sliceLast100 state.log ++ payload }
  | .GAME_RESTORE payload =>
      { payload with log := payload.log ++ [mkLog c "Session restored." .sys] }
  | .GAME_RESET =>
      blankGame

/-- `zkBusy(s)` — a pipeline is in flight. -/
def zkBusy (s : GameState) : Bool :=
  s.zkProof.state != .IDLE &&
  s.zkProof.state != .VERIFICATION_SUCCESS &&
  s.zkProof.state != .VERIFICATION_FAILURE

/-- `canFire(s)`. -/
def canFire (s : GameState) : Bool :=
  s.phase == .battle && s.myTurn && !zkBusy s

/-- Result kind of `parseVoice` (`VoiceCommand.action`). -/
inductive VoiceAction
  | fire | place | abort | unknown
deriving DecidableEq

/-- `interface VoiceCommand`.  The 0.0–1.0 float confidence is modelled
as a rational; it is only threaded through, never computed with. -/
structure VoiceCommand where
  transcript : String
  action : VoiceAction
  cellIndex : Int
  coord : String
  confidence : Rat
deriving DecidableEq

/-- JS `\w` word character (ASCII letter, digit or underscore). -/
def isWordChar (ch : Char) : Bool :=
  ch.isAlphanum || ch == '_'

/-- JS `\s` whitespace (the common members). -/
def isJsSpace (ch : Char) : Bool :=
  ch == ' ' || ch == '\t' || ch == '\n' || ch == '\r' || ch == '\x0b' || ch == '\x0c'

/-- `\b` holds before the current position given the previous char. -/
def boundaryBefore (prev : Option Char) : Bool :=
  match prev with
  | none => true
  | some p => !isWordChar p

/-- `\b` holds after a match given the rest of the input. -/
def boundaryAfter (l : List Char) : Bool :=
  match l with
  | [] => true
  | nx :: _ => !isWordChar nx

/-- One global, word-bounded replace: models `.replace(/\bw\b/g, d)` for
a word `w0 :: wrest`, scanning left-to-right and continuing after each
match, exactly as the JS regex engine does on the original string.  The
`fuel` argument (initialised to the input length, which strictly bounds
every recursive call) only makes the recursion structural. -/
def replaceWordAux (w0 : Char) (wrest : List Char) (d : Char) :
    Nat → Option Char → List Char → List Char
  | 0, _, l => l
  | _ + 1, _, [] => []
  | fuel + 1, prev, ch :: rest =>
    if boundaryBefore prev && (w0 :: wrest).isPrefixOf (ch :: rest) &&
       boundaryAfter (rest.drop wrest.length) then
      d :: replaceWordAux w0 wrest d fuel (some ((w0 :: wrest).getLastD ch)) (rest.drop wrest.length)
    else
      ch :: replaceWordAux w0 wrest d fuel (some ch) rest

/-- `.replace(/\bw\b/g, d)` on a char list. -/
def replaceWord (w : String) (d : Char) (l : List Char) : List Char :=
  match w.toList with
  | [] => l
  | w0 :: wrest => replaceWordAux w0 wrest d l.length none l

/-- Worker for `collapseSpaces`: `inRun` records whether the previous
char was whitespace (i.e. we are inside a `\s+` run already replaced). -/
def collapseGo (inRun : Bool) : List Char → List Char
  | [] => []
  | ch :: rest =>
    if isJsSpace ch then
      if inRun then collapseGo true rest
      else ' ' :: collapseGo true rest
    else ch :: collapseGo false rest

/-- `.replace(/\s+/g, ' ')` — each maximal whitespace run becomes one space. -/
def collapseSpaces (l : List Char) : List Char :=
  collapseGo false l

/-- `.trim()` — strip leading and trailing whitespace. -/
def trimChars (l : List Char) : List Char :=
  ((l.dropWhile isJsSpace).reverse.dropWhile isJsSpace).reverse

/-- `.toLowerCase()` on a char list (ASCII). -/
def jsLower (l : List Char) : List Char :=
  l.map Char.toLower

/-- The normalisation pipeline of `parseVoice`:
`raw.toLowerCase().replace(number words).replace(/\s+/g,' ').trim()`. -/
def normalizeTranscript (raw : String) : String :=
  let t0 := jsLower raw.toList
  let t1 := replaceWord "one" '1' t0
  let t2 := replaceWord "two" '2' t1
  let t3 := replaceWord "three" '3' t2
  let t4 := replaceWord "four" '4' t3
  let t5 := replaceWord "five" '5' t4
  let t6 := replaceWord "six" '6' t5
  String.mk (trimChars (collapseSpaces t6))

/-- `/^(abort|cancel|stop)/.test(t)`. -/
def isAbortCmd (t : String) : Bool :=
  "abort".toList.isPrefixOf t.toList || "cancel".toList.isPrefixOf t.toList ||
  "stop".toList.isPrefixOf t.toList

/-- The alternation `(fire|shoot|attack|place|put|deploy)`. -/
def VERBS : List String :=
  ["fire", "shoot", "attack", "place", "put", "deploy"]

/-- `[a-z]` (ASCII). -/
def isAsciiLower (ch : Char) : Bool :=
  'a' ≤ ch && ch ≤ 'z'

/-- `t.match(/^(fire|shoot|attack|place|put|deploy)\s+([a-z]+)\s*(\d)$/)`
as a deterministic parse: the verb (no verb is a prefix of another, so
the first prefix-matching alternative is the only one), at least one
whitespace char, a maximal non-empty lowercase-letter run, optional
whitespace, and exactly one final digit. -/
def matchCmd (t : String) : Option (String × String × Char) :=
  match VERBS.find? (fun v => v.toList.isPrefixOf t.toList) with
  | none => none
  | some v =>
    let rest := t.toList.drop v.length
    match rest with
    | [] => none
    | ch :: _ =>
      if !isJsSpace ch then none else
      let r1 := rest.dropWhile isJsSpace
      let letters := r1.takeWhile isAsciiLower
      if letters.isEmpty then none else
      let r2 := r1.dropWhile isAsciiLower
      match r2.dropWhile isJsSpace with
      | [d] => if d.isDigit then some (v, String.mk letters, d) else none
      | _ => none

/-- Result of the JS property access `NATO[key]` on the plain object
literal: an own entry yields the column-letter string; a key naming an
inherited `Object.prototype` property yields that property's value — a
truthy non-string object; any other key yields `undefined`. -/
inductive NATOValue
  | letter (c : Char)
  | protoProp
  | jsUndefined
deriving DecidableEq

/-- The `NATO` object-literal lookup.  Because the literal inherits from
`Object.prototype`, the lookup consults the prototype chain: the keys
`constructor`, `hasOwnProperty`, `isPrototypeOf`, `propertyIsEnumerable`,
`toLocaleString`, `toString`, `valueOf` and the four dunder accessor
pairs plus `__proto__` all resolve to truthy non-string values instead
of `undefined`.  Of these, only `constructor` consists purely of
lowercase letters and is therefore producible by `matchCmd`'s
`([a-z]+)` group. -/
def NATO (s : String) : NATOValue :=
  if s == "alpha" then .letter 'a' else if s == "bravo" then .letter 'b'
  else if s == "charlie" then .letter 'c' else if s == "delta" then .letter 'd'
  else if s == "echo" then .letter 'e' else if s == "foxtrot" then .letter 'f'
  else if s == "a" then .letter 'a' else if s == "b" then .letter 'b'
  else if s == "c" then .letter 'c' else if s == "d" then .letter 'd'
  else if s == "e" then .letter 'e' else if s == "f" then .letter 'f'
  else if s == "constructor" || s == "hasOwnProperty" || s == "isPrototypeOf"
       || s == "propertyIsEnumerable" || s == "toLocaleString" || s == "toString"
       || s == "valueOf" || s == "__defineGetter__" || s == "__defineSetter__"
       || s == "__lookupGetter__" || s == "__lookupSetter__" || s == "__proto__"
    then .protoProp
  else .jsUndefined

/-- The body of `parseVoice` from the `t` binding on: everything after
the transcript normalisation.  The function is fallible: when the NATO
lookup hits an inherited `Object.prototype` property, the value is
truthy, so the `if (!colLetter) return base` guard is NOT taken and the
subsequent `colLetter.charCodeAt(0)` call throws a TypeError — modelled
as `Except.error`. -/
def parseVoiceWith (raw : String) (confidence : Rat) (t : String) : Except String VoiceCommand :=
  let base : VoiceCommand :=
    { transcript := raw, action := .unknown, cellIndex := -1, coord := "", confidence := confidence }
  if isAbortCmd t then .ok { base with action := .abort } else
  match matchCmd t with
  | none => .ok base
  | some (v, letters, d) =>
    match NATO letters with
    | .jsUndefined => .ok base
    | .protoProp => .error "TypeError: colLetter.charCodeAt is not a function"
    | .letter colLetter =>
      let col : Int := Int.ofNat colLetter.toNat - 97
      let row : Int := Int.ofNat (d.toNat - 48) - 1
      if col < 0 || col ≥ Int.ofNat GRID || row < 0 || row ≥ Int.ofNat GRID then .ok base else
      .ok { transcript := raw
            action := if v == "fire" || v == "shoot" || v == "attack" then .fire else .place
            cellIndex := row * Int.ofNat GRID + col
            coord := String.singleton colLetter.toUpper ++ toString (row + 1)
            confidence := confidence }

/-- `parseVoice(raw, confidence)`: normalise, then parse; `Except.error`
is the thrown TypeError. -/
def parseVoice (raw : String) (confidence : Rat) : Except String VoiceCommand :=
  parseVoiceWith raw confidence (normalizeTranscript raw)

/-!
## Handler layer

The `App` component's callbacks are asynchronous and act on three pieces
of mutable state: the reducer-owned game state (`useReducer`), the user
profile (`persistProfile`), the persisted snapshot (`persistGame` plus
the `useEffect` that re-persists the game after every change), and the
synchronous re-entrancy flag `busyRef`.  `System` packages those, and
each handler is modelled as a function on `System`, split at its `await`
suspension points so interleavings with other handlers can be expressed.
Fresh identifiers (`txId()`), hex blobs (`simulateZK`) and clock readings
are parameters.
-/

/-- The mutable state the handlers act on. -/
structure System where
  game : GameState
  profile : UserProfile
  saved : Option GameState
  busy : Bool
deriving DecidableEq

/-- One `dispatch(action)` plus the `useEffect` that runs
`persistGame(game.sid > 0 ? game : null)` after the state changes. -/
def sysDispatch (c : Clock) (sys : System) (a : GameAction) : System :=
  let g := gameReducer c sys.game a
  { sys with game := g, saved := if g.sid > 0 then some g else none }

/-- `withTx(u, r)` — append a ledger record (id and timestamp are the
impure `txId()` / `datets()` results, passed in). -/
def withTx (newId newTs : String) (u : UserProfile) (ty : TxType) (amount : Nat)
    (status : TxStatus) (label : String) (sessionId : Option Nat) : UserProfile :=
  { u with txHistory := u.txHistory ++
      [{ id := newId, type := ty, amount := amount, ts := newTs,
         status := status, label := label, sessionId := sessionId }] }

/-- The stake-deduction step of `handleStartGame` (balance decrease,
`totalStaked` increase, `stake` ledger record). -/
def startDeduct (newId newTs : String) (sid bet : Nat) (p : UserProfile) : UserProfile :=
  withTx newId newTs
    { p with balance := p.balance - Int.ofNat bet, totalStaked := p.totalStaked + bet }
    .stake bet .confirmed ("Game #" ++ toString sid ++ " stake") (some sid)

/-- `handleAbort` — unconditionally: refund the stake when
`stakeDeducted && phase !== 'ended'`, clear `busyRef`, delete the
snapshot, and dispatch `GAME_RESET`.  There is no busy/pipeline guard. -/
def handleAbort (c : Clock) (refundId refundTs : String) (sys : System) : System :=
  let sys1 :=
    if sys.game.stakeDeducted && sys.game.phase != .ended then
      let p' := withTx refundId refundTs
        { sys.profile with balance := sys.profile.balance + Int.ofNat sys.game.stake }
        .refund sys.game.stake .confirmed
        ("Stake refund — aborted #" ++ toString sys.game.sid) (some sys.game.sid)
      { sys with profile := p' }
    else sys
  sysDispatch c { sys1 with busy := false, saved := none } .GAME_RESET

/-- The guard at the top of `handleFire`: `busyRef`, `canFire`, and the
target cell must still be fog/targeted (out-of-range indices fail). -/
def fireAccepts (sys : System) (index : Nat) : Bool :=
  !sys.busy && canFire sys.game &&
    (match sys.game.foeGrid.get? index with
     | some .fog => true
     | some .targeted => true
     | _ => false)

/-- The guard at the top of `handlePlace`: `busyRef`, unit not yet
placed, and phase must be `placement`. -/
def placeAccepts (sys : System) : Bool :=
  !sys.busy && sys.game.myUnit == -1 && sys.game.phase == .placement

/-- `handleFire` up to the first `await`: set `busyRef`, dispatch
`ZK_WITNESS_BEGIN`. -/
def fireSeg1 (c : Clock) (index : Nat) (sys : System) : System :=
  sysDispatch c { sys with busy := true } (.ZK_WITNESS_BEGIN index)

/-- After the witness `await`: dispatch `ZK_WITNESS_DONE` then
`ZK_CIRCUIT_BEGIN`. -/
def fireSeg2 (c₁ c₂ : Clock) (witnessHex : String) (sys : System) : System :=
  sysDispatch c₂ (sysDispatch c₁ sys (.ZK_WITNESS_DONE witnessHex)) .ZK_CIRCUIT_BEGIN

/-- After the circuit `await`: dispatch `ZK_PROOF_BEGIN`. -/
def fireSeg3 (c : Clock) (sys : System) : System :=
  sysDispatch c sys .ZK_PROOF_BEGIN

/-- After the proof `await`: dispatch `ZK_PROOF_DONE` then
`ZK_VERIFY_BEGIN`. -/
def fireSeg4 (c₁ c₂ : Clock) (proofHex : String) (sys : System) : System :=
  sysDispatch c₂ (sysDispatch c₁ sys (.ZK_PROOF_DONE proofHex)) .ZK_VERIFY_BEGIN

/-- After the verification `await`: dispatch `ZK_VERIFY_SUCCESS` with
`isHit` computed from the snapshot taken when the fire began. -/
def fireSeg5 (c : Clock) (isHit : Bool) (verifyTxHash : String) (sys : System) : System :=
  sysDispatch c sys (.ZK_VERIFY_SUCCESS isHit verifyTxHash)

/-- After the short pause: dispatch `SHOT_APPLY`. -/
def fireSeg6 (c : Clock) (index : Nat) (isHit : Bool) (sys : System) : System :=
  sysDispatch c sys (.SHOT_APPLY index isHit)

/-- The win branch of `handleFire`: `GAME_OVER('you')`, snapshot deleted
(the post-render effect then re-persists the ended game), prize of
`2 × snap.stake` credited with a `win` ledger record, `busyRef`
cleared.  `stake`/`sid` come from the snapshot taken at fire start. -/
def fireWinSeg (c : Clock) (overTx recId recTs : String) (stake sid : Nat)
    (sys : System) : System :=
  let sys1 := sysDispatch c { sys with saved := none } (.GAME_OVER (some .you) overTx)
  let prize := stake * 2
  let p := sys1.profile
  let p' := withTx recId recTs
      { p with balance := p.balance + Int.ofNat prize, wins := p.wins + 1 }
      .win prize .confirmed
      ("Win game #" ++ toString sid ++ " (+" ++ toString prize ++ " XLM)") (some sid)
  { sys1 with profile := p', busy := false }

/-- The miss branch's first step: the "Enemy computing strike…" log. -/
def fireMissLog (c : Clock) (sys : System) : System :=
  sysDispatch c sys (.LOG_APPEND [mkLog c "Enemy computing strike…" .fire])

/-- `latest.myGrid.map((_, i) => i).filter(i => cell !== 'hit' && cell !== 'miss')`. -/
def availCells (g : GameState) : List Nat :=
  (List.range g.myGrid.length).filter (fun i =>
    match g.myGrid.get? i with
    | some .hit => false
    | some .miss => false
    | _ => true)

/-- The enemy-AI tail of `handleFire`'s miss branch.  `aiPick` is the
`rnd(avail.length)` draw.  `stake`/`sid` come from the fire-start
snapshot; the grid is re-read from the freshest state (`gameRef`). -/
def fireEnemySeg (cStrike cOver cReset : Clock) (overTx recId recTs : String)
    (stake sid aiPick : Nat) (sys : System) : System :=
  let latest := sys.game
  let avail := availCells latest
  if avail.isEmpty then
    { sysDispatch cReset sys .ZK_RESET with busy := false }
  else
    let aiIdx := avail.getD aiPick 0
    let aiIsHit := Int.ofNat aiIdx == latest.myUnit
    let sys1 := sysDispatch cStrike sys (.ENEMY_STRIKE aiIdx aiIsHit)
    if aiIsHit then
      let sys2 := sysDispatch cOver { sys1 with saved := none } (.GAME_OVER (some .foe) overTx)
      let p := sys2.profile
      let p' := withTx recId recTs { p with losses := p.losses + 1 }
          .loss stake .confirmed ("Loss game #" ++ toString sid) (some sid)
      { sysDispatch cReset { sys2 with profile := p' } .ZK_RESET with busy := false }
    else
      { sysDispatch cReset sys1 .ZK_RESET with busy := false }

/-- Clock readings and impure values consumed by one full `handleFire`
run (one clock per dispatch site, in source order). -/
structure FireEnv where
  k1 : Clock
  k2 : Clock
  k3 : Clock
  k4 : Clock
  k5 : Clock
  k6 : Clock
  k7 : Clock
  k8 : Clock
  k9 : Clock
  k10 : Clock
  k11 : Clock
  k12 : Clock
  k13 : Clock
  witnessHex : String
  proofHex : String
  verifyTxHash : String
  overTx : String
  recId : String
  recTs : String
  aiPick : Nat
deriving DecidableEq

/-- The proof pipeline of `handleFire`, from `ZK_WITNESS_BEGIN` through
`ZK_VERIFY_SUCCESS` (the state to which `SHOT_APPLY` is then applied),
with no interleaved handler. -/
def fireToVerify (e : FireEnv) (index : Nat) (isHit : Bool) (sys : System) : System :=
  fireSeg5 e.k7 isHit e.verifyTxHash
    (fireSeg4 e.k5 e.k6 e.proofHex
      (fireSeg3 e.k4
        (fireSeg2 e.k2 e.k3 e.witnessHex
          (fireSeg1 e.k1 index sys))))

/-- The proof pipeline of `handleFire`, from `ZK_WITNESS_BEGIN` through
`SHOT_APPLY`, with no interleaved handler. -/
def fireToShot (e : FireEnv) (index : Nat) (isHit : Bool) (sys : System) : System :=
  fireSeg6 e.k8 index isHit (fireToVerify e index isHit sys)

/-- One complete, uninterrupted `handleFire(index)` run. -/
def handleFireRun (e : FireEnv) (index : Nat) (sys : System) : System :=
  if !fireAccepts sys index then sys else
  let snap := sys.game
  let isHit := Int.ofNat index == snap.foeUnit
  let s6 := fireToShot e index isHit sys
  if isHit then
    fireWinSeg e.k9 e.overTx e.recId e.recTs snap.stake snap.sid s6
  else
    fireEnemySeg e.k11 e.k12 e.k13 e.overTx e.recId e.recTs snap.stake snap.sid e.aiPick
      (fireMissLog e.k10 s6)

/-!
## Auxiliary notions used by the theorems
-/

/-- The stage events of the pipeline other than `ZK_WITNESS_BEGIN`:
their reducer cases touch only `zkProof` and the log. -/
def zkStageAct : GameAction → Bool
  | .ZK_WITNESS_DONE _ => true
  | .ZK_CIRCUIT_BEGIN => true
  | .ZK_PROOF_BEGIN => true
  | .ZK_PROOF_DONE _ => true
  | .ZK_VERIFY_BEGIN => true
  | .ZK_VERIFY_SUCCESS _ _ => true
  | _ => false

/-- Numeric position of a phase along setup → placement → battle → ended. -/
def phaseIdx : GamePhase → Nat
  | .setup => 0
  | .placement => 1
  | .battle => 2
  | .ended => 3

/-- The session-lifecycle actions whose reducer case overwrites `phase`
with a fixed (or restored-snapshot) value rather than advancing it. -/
def replacesPhase : GameAction → Bool
  | .GAME_INIT _ _ _ => true
  | .GAME_READY _ => true
  | .BATTLE_BEGIN _ => true
  | .GAME_RESTORE _ => true
  | .GAME_RESET => true
  | _ => false

/-- Actions that leave a `VERIFICATION_FAILURE` proof context in the
failure state (everything except the explicit reset, a new fire's
witness begin, the unguarded `ZK_PROOF_BEGIN`, and the actions that
replace the whole state). -/
def keepsFailure : GameAction → Bool
  | .ZK_RESET => false
  | .ZK_WITNESS_BEGIN _ => false
  | .ZK_PROOF_BEGIN => false
  | .GAME_INIT _ _ _ => false
  | .GAME_RESTORE _ => false
  | .GAME_RESET => false
  | _ => true

/-- Erase exactly the clock-derived data of a state: the log (whose
entries carry `nowts()` strings) and the two `Date.now()` timestamp
fields of the proof context. -/
def eraseClock (s : GameState) : GameState :=
  { s with
    log := []
    zkProof := { s.zkProof with startedAt := 0, resolvedAt := 0 } }

/-!
## Concrete fixtures

A reachable battle-phase session (stake 10, session id 1000, foe unit at
index 5, own unit at index 0), its profile with the welcome deposit and
the stake deduction, and a fixed environment for fire runs.
-/

/-- A fixed clock reading. -/
def clock0 : Clock :=
  { now := 0, ts := "14:32:07" }

/-- A later clock reading. -/
def clock1 : Clock :=
  { now := 1, ts := "14:32:08" }

/-- Battle state reached from `blankGame` by the app's own dispatch
sequence: GAME_INIT → GAME_READY → UNIT_PLACE → BATTLE_BEGIN. -/
def battleState : GameState :=
  gameReducer clock0
    (gameReducer clock0
      (gameReducer clock0
        (gameReducer clock0 blankGame (.GAME_INIT 1000 10 5))
        (.GAME_READY "STAKETX"))
      (.UNIT_PLACE 0))
    (.BATTLE_BEGIN true)

/-- A profile as built at first login of a verified account. -/
def profile0 : UserProfile :=
  { sub := "auth0|op", username := "operative", email := "op@example.com",
    emailVerified := true, walletAddress := "GDEMO", balance := 500,
    wins := 0, losses := 0, totalStaked := 0,
    txHistory := [{ id := "TXDEP", type := .deposit, amount := 500, ts := "t0",
                    status := .confirmed, label := "Welcome — verified account",
                    sessionId := none }] }

/-- `profile0` after the stake deduction of `handleStartGame` for
session 1000 with bet 10. -/
def profile1 : UserProfile :=
  startDeduct "TXSTK" "t1" 1000 10 profile0

/-- The whole system at the start of the battle. -/
def sys0 : System :=
  { game := battleState, profile := profile1, saved := some battleState, busy := false }

/-- A concrete environment for a `handleFire` run. -/
def env0 : FireEnv :=
  { k1 := clock0, k2 := clock0, k3 := clock0, k4 := clock0, k5 := clock0,
    k6 := clock0, k7 := clock0, k8 := clock0, k9 := clock0, k10 := clock0,
    k11 := clock0, k12 := clock0, k13 := clock0,
    witnessHex := "aa11", proofHex := "bb22", verifyTxHash := "TXVER",
    overTx := "TXOVER", recId := "TXREC", recTs := "t2", aiPick := 0 }

/-- A state whose proof context is in `VERIFICATION_FAILURE`, reached by
dispatching `ZK_VERIFY_FAILURE` (which the reducer accepts from any
stage). -/
def failState : GameState :=
  gameReducer clock0 battleState (.ZK_VERIFY_FAILURE "proof rejected")

/-- The exploit interleaving for the ledger invariant: fire at the foe
unit (index 5), the user clicks ABORT at the first `await` point
(refunding the stake and resetting the session), and the still-running
fire closure then resumes: its guarded `ZK_WITNESS_DONE` /
`ZK_CIRCUIT_BEGIN` dispatches no-op against the reset context, but the
unguarded `ZK_PROOF_BEGIN` re-enters the pipeline, which then runs to
`VERIFICATION_SUCCESS` (`isHit` was computed from the pre-abort
snapshot, and `5 = battleState.foeUnit`), applies the shot, and credits
the 2× stake win for the same session id. -/
def abortDuringFireTrace : System :=
  fireWinSeg clock0 "TXOVER" "TXREC" "t2" battleState.stake battleState.sid
    (fireSeg6 clock0 5 true
      (fireSeg5 clock0 true "TXVER"
        (fireSeg4 clock0 clock0 "bb22"
          (fireSeg3 clock0
            (fireSeg2 clock0 clock0 "aa11"
              (handleAbort clock0 "TXRFD" "t3"
                (fireSeg1 clock0 5 sys0)))))))

/-!
## Helper lemmas

Per-action projection lemmas about `gameReducer`, composed below into
facts about the fire pipeline.
-/

theorem zkStage_touches_only_zkProof (c : Clock) (s : GameState) (a : GameAction)
    (h : zkStageAct a = true) :
    (gameReducer c s a).phase = s.phase ∧
    (gameReducer c s a).foeGrid = s.foeGrid ∧
    (gameReducer c s a).myGrid = s.myGrid ∧
    (gameReducer c s a).myTurn = s.myTurn ∧
    (gameReducer c s a).winner = s.winner ∧
    (gameReducer c s a).sid = s.sid ∧
    (gameReducer c s a).stake = s.stake ∧
    (gameReducer c s a).shots = s.shots ∧
    (gameReducer c s a).hits = s.hits ∧
    (gameReducer c s a).stakeDeducted = s.stakeDeducted ∧
    (gameReducer c s a).foeUnit = s.foeUnit ∧
    (gameReducer c s a).myUnit = s.myUnit ∧
    (gameReducer c s a).txIds = s.txIds := by
  cases a <;> simp [zkStageAct] at h <;>
    simp only [gameReducer] <;>
    (try split) <;> simp [appendLog]

theorem zk_after_witness_begin (c : Clock) (s : GameState) (i : Nat) :
    (gameReducer c s (.ZK_WITNESS_BEGIN i)).zkProof =
      { blankZK with state := .WITNESS_GENERATION, targetIndex := Int.ofNat i, startedAt := c.now } := by
  simp [gameReducer, appendLog]

theorem zk_after_witness_done (c : Clock) (s : GameState) (w : String)
    (h : s.zkProof.state = .WITNESS_GENERATION) :
    (gameReducer c s (.ZK_WITNESS_DONE w)).zkProof =
      { s.zkProof with state := .CIRCUIT_COMPILATION, witnessHex := w } := by
  simp [gameReducer, appendLog, h]

theorem zk_after_circuit_begin (c : Clock) (s : GameState) :
    (gameReducer c s .ZK_CIRCUIT_BEGIN).zkProof = s.zkProof := by
  by_cases h : s.zkProof.state = .CIRCUIT_COMPILATION <;> simp [gameReducer, appendLog, h]

theorem zk_after_proof_begin (c : Clock) (s : GameState) :
    (gameReducer c s .ZK_PROOF_BEGIN).zkProof =
      { s.zkProof with state := .PROOF_GENERATION } := by
  simp [gameReducer, appendLog]

theorem zk_after_proof_done (c : Clock) (s : GameState) (p : String)
    (h : s.zkProof.state = .PROOF_GENERATION) :
    (gameReducer c s (.ZK_PROOF_DONE p)).zkProof =
      { s.zkProof with state := .ON_CHAIN_VERIFICATION, proofHex := p } := by
  simp [gameReducer, appendLog, h]

theorem zk_after_verify_begin (c : Clock) (s : GameState) :
    (gameReducer c s .ZK_VERIFY_BEGIN).zkProof = s.zkProof := by
  simp [gameReducer, appendLog]

theorem zk_after_verify_success (c : Clock) (s : GameState) (b : Bool) (v : String)
    (h : s.zkProof.state = .ON_CHAIN_VERIFICATION) :
    (gameReducer c s (.ZK_VERIFY_SUCCESS b v)).zkProof =
      { s.zkProof with state := .VERIFICATION_SUCCESS, isHit := b, verifyTxHash := v, resolvedAt := c.now } := by
  simp [gameReducer, appendLog, h]

theorem shot_apply_fields (c : Clock) (s : GameState) (i : Nat) (b : Bool) :
    (gameReducer c s (.SHOT_APPLY i b)).foeGrid = s.foeGrid.set i (if b then .hit else .miss) ∧
    (gameReducer c s (.SHOT_APPLY i b)).shots = s.shots + 1 ∧
    (gameReducer c s (.SHOT_APPLY i b)).hits = s.hits + (if b then 1 else 0) ∧
    (gameReducer c s (.SHOT_APPLY i b)).phase = s.phase ∧
    (gameReducer c s (.SHOT_APPLY i b)).myTurn = s.myTurn ∧
    (gameReducer c s (.SHOT_APPLY i b)).winner = s.winner ∧
    (gameReducer c s (.SHOT_APPLY i b)).zkProof = s.zkProof ∧
    (gameReducer c s (.SHOT_APPLY i b)).sid = s.sid ∧
    (gameReducer c s (.SHOT_APPLY i b)).stake = s.stake := by
  simp [gameReducer, appendLog]

theorem game_over_fields (c : Clock) (s : GameState) (w : Option WinnerKind) (tx : String) :
    (gameReducer c s (.GAME_OVER w tx)).phase = .ended ∧
    (gameReducer c s (.GAME_OVER w tx)).winner = w ∧
    (gameReducer c s (.GAME_OVER w tx)).foeGrid = s.foeGrid ∧
    (gameReducer c s (.GAME_OVER w tx)).myGrid = s.myGrid ∧
    (gameReducer c s (.GAME_OVER w tx)).sid = s.sid ∧
    (gameReducer c s (.GAME_OVER w tx)).stake = s.stake ∧
    (gameReducer c s (.GAME_OVER w tx)).zkProof = s.zkProof := by
  simp [gameReducer, appendLog]

theorem witness_begin_fields (c : Clock) (s : GameState) (i : Nat) :
    (gameReducer c s (.ZK_WITNESS_BEGIN i)).phase = s.phase ∧
    (gameReducer c s (.ZK_WITNESS_BEGIN i)).foeGrid = s.foeGrid ∧
    (gameReducer c s (.ZK_WITNESS_BEGIN i)).myGrid = s.myGrid ∧
    (gameReducer c s (.ZK_WITNESS_BEGIN i)).myTurn = false ∧
    (gameReducer c s (.ZK_WITNESS_BEGIN i)).winner = s.winner ∧
    (gameReducer c s (.ZK_WITNESS_BEGIN i)).sid = s.sid ∧
    (gameReducer c s (.ZK_WITNESS_BEGIN i)).stake = s.stake ∧
    (gameReducer c s (.ZK_WITNESS_BEGIN i)).shots = s.shots ∧
    (gameReducer c s (.ZK_WITNESS_BEGIN i)).hits = s.hits ∧
    (gameReducer c s (.ZK_WITNESS_BEGIN i)).stakeDeducted = s.stakeDeducted ∧
    (gameReducer c s (.ZK_WITNESS_BEGIN i)).foeUnit = s.foeUnit ∧
    (gameReducer c s (.ZK_WITNESS_BEGIN i)).myUnit = s.myUnit ∧
    (gameReducer c s (.ZK_WITNESS_BEGIN i)).txIds = s.txIds := by
  simp [gameReducer, appendLog]

theorem sysDispatch_game (c : Clock) (sys : System) (a : GameAction) :
    (sysDispatch c sys a).game = gameReducer c sys.game a := rfl

theorem sysDispatch_profile (c : Clock) (sys : System) (a : GameAction) :
    (sysDispatch c sys a).profile = sys.profile := rfl

theorem sysDispatch_busy (c : Clock) (sys : System) (a : GameAction) :
    (sysDispatch c sys a).busy = sys.busy := rfl

/-- The state of the pipeline when it reaches `SHOT_APPLY`: an
uninterrupted prefix always lands in `VERIFICATION_SUCCESS` with the
fired index as target, the shot is applied to the snapshot's foe grid,
and nothing else of the session is touched. -/
theorem fireToShot_fields (e : FireEnv) (index : Nat) (b : Bool) (sys : System) :
    (fireToShot e index b sys).game.phase = sys.game.phase ∧
    (fireToShot e index b sys).game.foeGrid = sys.game.foeGrid.set index (if b then .hit else .miss) ∧
    (fireToShot e index b sys).game.myTurn = false ∧
    (fireToShot e index b sys).game.winner = sys.game.winner ∧
    (fireToShot e index b sys).game.sid = sys.game.sid ∧
    (fireToShot e index b sys).game.stake = sys.game.stake ∧
    (fireToShot e index b sys).game.zkProof.state = .VERIFICATION_SUCCESS ∧
    (fireToShot e index b sys).game.zkProof.targetIndex = Int.ofNat index ∧
    (fireToShot e index b sys).profile = sys.profile ∧
    (fireToShot e index b sys).busy = true := by
  have hg : (fireToShot e index b sys).game =
      gameReducer e.k8
        (gameReducer e.k7
          (gameReducer e.k6
            (gameReducer e.k5
              (gameReducer e.k4
                (gameReducer e.k3
                  (gameReducer e.k2
                    (gameReducer e.k1 sys.game (.ZK_WITNESS_BEGIN index))
                    (.ZK_WITNESS_DONE e.witnessHex))
                  .ZK_CIRCUIT_BEGIN)
                .ZK_PROOF_BEGIN)
              (.ZK_PROOF_DONE e.proofHex))
            .ZK_VERIFY_BEGIN)
          (.ZK_VERIFY_SUCCESS b e.verifyTxHash))
        (.SHOT_APPLY index b) := rfl
  set g1 := gameReducer e.k1 sys.game (.ZK_WITNESS_BEGIN index) with hd1
  set g2 := gameReducer e.k2 g1 (.ZK_WITNESS_DONE e.witnessHex) with hd2
  set g3 := gameReducer e.k3 g2 .ZK_CIRCUIT_BEGIN with hd3
  set g4 := gameReducer e.k4 g3 .ZK_PROOF_BEGIN with hd4
  set g5 := gameReducer e.k5 g4 (.ZK_PROOF_DONE e.proofHex) with hd5
  set g6 := gameReducer e.k6 g5 .ZK_VERIFY_BEGIN with hd6
  set g7 := gameReducer e.k7 g6 (.ZK_VERIFY_SUCCESS b e.verifyTxHash) with hd7
  set g8 := gameReducer e.k8 g7 (.SHOT_APPLY index b) with hd8
  have hz1 := zk_after_witness_begin e.k1 sys.game index
  rw [← hd1] at hz1
  have hz2 := zk_after_witness_done e.k2 g1 e.witnessHex (by simp [hz1])
  rw [← hd2] at hz2
  have hz3 := zk_after_circuit_begin e.k3 g2
  rw [← hd3] at hz3
  have hz4 := zk_after_proof_begin e.k4 g3
  rw [← hd4] at hz4
  have hz5 := zk_after_proof_done e.k5 g4 e.proofHex (by simp [hz4])
  rw [← hd5] at hz5
  have hz6 := zk_after_verify_begin e.k6 g5
  rw [← hd6] at hz6
  have hz7 := zk_after_verify_success e.k7 g6 b e.verifyTxHash (by simp [hz6, hz5])
  rw [← hd7] at hz7
  have hp1 := witness_begin_fields e.k1 sys.game index
  rw [← hd1] at hp1
  have hp2 := zkStage_touches_only_zkProof e.k2 g1 (.ZK_WITNESS_DONE e.witnessHex) rfl
  rw [← hd2] at hp2
  have hp3 := zkStage_touches_only_zkProof e.k3 g2 .ZK_CIRCUIT_BEGIN rfl
  rw [← hd3] at hp3
  have hp4 := zkStage_touches_only_zkProof e.k4 g3 .ZK_PROOF_BEGIN rfl
  rw [← hd4] at hp4
  have hp5 := zkStage_touches_only_zkProof e.k5 g4 (.ZK_PROOF_DONE e.proofHex) rfl
  rw [← hd5] at hp5
  have hp6 := zkStage_touches_only_zkProof e.k6 g5 .ZK_VERIFY_BEGIN rfl
  rw [← hd6] at hp6
  have hp7 := zkStage_touches_only_zkProof e.k7 g6 (.ZK_VERIFY_SUCCESS b e.verifyTxHash) rfl
  rw [← hd7] at hp7
  have hp8 := shot_apply_fields e.k8 g7 index b
  rw [← hd8] at hp8
  obtain ⟨q1, q2, q3, q4, q5, q6, q7, q8, q9⟩ := hp8
  refine ⟨?_, ?_, ?_, ?_, ?_, ?_, ?_, ?_, ?_, ?_⟩
  · rw [hg, q4, hp7.1, hp6.1, hp5.1, hp4.1, hp3.1, hp2.1, hp1.1]
  · rw [hg, q1, hp7.2.1, hp6.2.1, hp5.2.1, hp4.2.1, hp3.2.1, hp2.2.1, hp1.2.1]
  · rw [hg, q5, hp7.2.2.2.1, hp6.2.2.2.1, hp5.2.2.2.1, hp4.2.2.2.1, hp3.2.2.2.1, hp2.2.2.2.1, hp1.2.2.2.1]
  · rw [hg, q6, hp7.2.2.2.2.1, hp6.2.2.2.2.1, hp5.2.2.2.2.1, hp4.2.2.2.2.1, hp3.2.2.2.2.1, hp2.2.2.2.2.1, hp1.2.2.2.2.1]
  · rw [hg, q8, hp7.2.2.2.2.2.1, hp6.2.2.2.2.2.1, hp5.2.2.2.2.2.1, hp4.2.2.2.2.2.1, hp3.2.2.2.2.2.1, hp2.2.2.2.2.2.1, hp1.2.2.2.2.2.1]
  · rw [hg, q9, hp7.2.2.2.2.2.2.1, hp6.2.2.2.2.2.2.1, hp5.2.2.2.2.2.2.1, hp4.2.2.2.2.2.2.1, hp3.2.2.2.2.2.2.1, hp2.2.2.2.2.2.2.1, hp1.2.2.2.2.2.2.1]
  · rw [hg, q7, hz7]
  · rw [hg, q7, hz7]
    show g6.zkProof.targetIndex = Int.ofNat index
    rw [hz6, hz5]
    show g4.zkProof.targetIndex = Int.ofNat index
    rw [hz4]
    show g3.zkProof.targetIndex = Int.ofNat index
    rw [hz3, hz2]
    show g1.zkProof.targetIndex = Int.ofNat index
    rw [hz1]
  · simp only [fireToShot, fireToVerify, fireSeg6, fireSeg5, fireSeg4, fireSeg3, fireSeg2, fireSeg1,
      sysDispatch_profile]
  · simp only [fireToShot, fireToVerify, fireSeg6, fireSeg5, fireSeg4, fireSeg3, fireSeg2, fireSeg1,
      sysDispatch_busy]

/-- The full proof context at the moment `SHOT_APPLY` is dispatched by
an uninterrupted `handleFire` pipeline. -/
theorem fireToVerify_zkProof (e : FireEnv) (index : Nat) (b : Bool) (sys : System) :
    (fireToVerify e index b sys).game.zkProof =
      { state := .VERIFICATION_SUCCESS, targetIndex := Int.ofNat index,
        witnessHex := e.witnessHex, proofHex := e.proofHex,
        verifyTxHash := e.verifyTxHash, startedAt := e.k1.now,
        resolvedAt := e.k7.now, errorMsg := "", isHit := b } := by
  have hg : (fireToVerify e index b sys).game =
      gameReducer e.k7
        (gameReducer e.k6
          (gameReducer e.k5
            (gameReducer e.k4
              (gameReducer e.k3
                (gameReducer e.k2
                  (gameReducer e.k1 sys.game (.ZK_WITNESS_BEGIN index))
                  (.ZK_WITNESS_DONE e.witnessHex))
                .ZK_CIRCUIT_BEGIN)
              .ZK_PROOF_BEGIN)
            (.ZK_PROOF_DONE e.proofHex))
          .ZK_VERIFY_BEGIN)
        (.ZK_VERIFY_SUCCESS b e.verifyTxHash) := rfl
  set g1 := gameReducer e.k1 sys.game (.ZK_WITNESS_BEGIN index) with hd1
  set g2 := gameReducer e.k2 g1 (.ZK_WITNESS_DONE e.witnessHex) with hd2
  set g3 := gameReducer e.k3 g2 .ZK_CIRCUIT_BEGIN with hd3
  set g4 := gameReducer e.k4 g3 .ZK_PROOF_BEGIN with hd4
  set g5 := gameReducer e.k5 g4 (.ZK_PROOF_DONE e.proofHex) with hd5
  set g6 := gameReducer e.k6 g5 .ZK_VERIFY_BEGIN with hd6
  have hz1 := zk_after_witness_begin e.k1 sys.game index
  rw [← hd1] at hz1
  have hz2 := zk_after_witness_done e.k2 g1 e.witnessHex (by simp [hz1])
  rw [← hd2] at hz2
  have hz3 := zk_after_circuit_begin e.k3 g2
  rw [← hd3] at hz3
  have hz4 := zk_after_proof_begin e.k4 g3
  rw [← hd4] at hz4
  have hz5 := zk_after_proof_done e.k5 g4 e.proofHex (by simp [hz4])
  rw [← hd5] at hz5
  have hz6 := zk_after_verify_begin e.k6 g5
  rw [← hd6] at hz6
  have hz7 := zk_after_verify_success e.k7 g6 b e.verifyTxHash (by simp [hz6, hz5])
  rw [hg]
  simp [hz7, hz6, hz5, hz4, hz3, hz2, hz1, blankZK]

/-!
## C1 — SHOT_APPLY and VERIFICATION_SUCCESS
-/

/-- C1 counterexample: dispatching `SHOT_APPLY` while the ProofContext
is `IDLE` (so not `VERIFICATION_SUCCESS`) does NOT leave the grid and
counters unchanged — the reducer's `SHOT_APPLY` case has no guard.  On
the (reachable) blank state it marks cell 3 hit and bumps `shots`. -/
theorem shotApply_unguarded_cex :
    blankGame.zkProof.state = ZKState.IDLE ∧
    blankGame.shots = 0 ∧
    blankGame.foeGrid.get? 3 = some CellKind.fog ∧
    (gameReducer clock0 blankGame (.SHOT_APPLY 3 true)).shots = 1 ∧
    (gameReducer clock0 blankGame (.SHOT_APPLY 3 true)).foeGrid.get? 3 = some CellKind.hit := by
  refine ⟨rfl, rfl, by decide, rfl, by decide⟩

/-- C1 (amended): the reducer applies `SHOT_APPLY` unconditionally, so
the guarantee is supplied by `handleFire`'s sequencing, not by a reducer
guard: an uninterrupted `handleFire` pipeline always brings the
ProofContext to `VERIFICATION_SUCCESS` with `targetIndex` equal to the
fired index before it dispatches `SHOT_APPLY`. -/
theorem shotApply_sees_verification_success (e : FireEnv) (index : Nat) (b : Bool) (sys : System) :
    (fireToVerify e index b sys).game.zkProof.state = ZKState.VERIFICATION_SUCCESS ∧
    (fireToVerify e index b sys).game.zkProof.targetIndex = Int.ofNat index := by
  rw [fireToVerify_zkProof e index b sys]
  exact ⟨rfl, rfl⟩

/-!
## C2 — out-of-order stage events
-/

/-- C2 counterexample: `ZK_PROOF_BEGIN` is listed among the
stage-completion events, but its reducer case has no stage guard: from
`IDLE` (not the expected `CIRCUIT_COMPILATION`) it still moves the
ProofContext to `PROOF_GENERATION` instead of being a no-op. -/
theorem zkProofBegin_not_noop_cex :
    blankGame.zkProof.state = ZKState.IDLE ∧
    (gameReducer clock0 blankGame .ZK_PROOF_BEGIN).zkProof.state = ZKState.PROOF_GENERATION := by
  exact ⟨rfl, rfl⟩

/-- C2 (amended): of the listed events, exactly `ZK_WITNESS_DONE`,
`ZK_CIRCUIT_BEGIN`, `ZK_PROOF_DONE` and `ZK_VERIFY_SUCCESS` carry a
stage guard; each of those returns the state entirely unchanged when the
ProofContext is not in its expected preceding stage.  (`ZK_PROOF_BEGIN`
and `ZK_VERIFY_FAILURE` apply unconditionally, and `ZK_VERIFY_BEGIN`
always appends a log line — see the counterexample.) -/
theorem zk_guarded_stage_events_noop (c : Clock) (s : GameState) (w p v : String) (b : Bool) :
    (s.zkProof.state ≠ ZKState.WITNESS_GENERATION → gameReducer c s (.ZK_WITNESS_DONE w) = s) ∧
    (s.zkProof.state ≠ ZKState.CIRCUIT_COMPILATION → gameReducer c s .ZK_CIRCUIT_BEGIN = s) ∧
    (s.zkProof.state ≠ ZKState.PROOF_GENERATION → gameReducer c s (.ZK_PROOF_DONE p) = s) ∧
    (s.zkProof.state ≠ ZKState.ON_CHAIN_VERIFICATION → gameReducer c s (.ZK_VERIFY_SUCCESS b v) = s) := by
  refine ⟨fun h => ?_, fun h => ?_, fun h => ?_, fun h => ?_⟩ <;> simp [gameReducer, h]

/-- Witness for C2's amended theorem at the blank state. -/
theorem zk_guarded_stage_events_noop_witness :
    gameReducer clock0 blankGame (.ZK_WITNESS_DONE "w") = blankGame ∧
    gameReducer clock0 blankGame .ZK_CIRCUIT_BEGIN = blankGame ∧
    gameReducer clock0 blankGame (.ZK_PROOF_DONE "p") = blankGame ∧
    gameReducer clock0 blankGame (.ZK_VERIFY_SUCCESS true "v") = blankGame :=
  ⟨(zk_guarded_stage_events_noop clock0 blankGame "w" "p" "v" true).1 (by decide),
   (zk_guarded_stage_events_noop clock0 blankGame "w" "p" "v" true).2.1 (by decide),
   (zk_guarded_stage_events_noop clock0 blankGame "w" "p" "v" true).2.2.1 (by decide),
   (zk_guarded_stage_events_noop clock0 blankGame "w" "p" "v" true).2.2.2 (by decide)⟩

/-!
## C3 — exactly-one stake settlement
-/

/-- C3: the ledger invariant is violated by the code.  In the abort-
during-fire interleaving (`abortDuringFireTrace`), the same deducted
stake of session 1000 is settled TWICE: once by the abort's refund and
once by the win credit of the still-running fire pipeline, leaving the
player with a riskless net profit (balance 500 − 10 + 10 + 20 = 520).
The fire is genuinely accepted (`fireAccepts`) and really targets the
foe unit. -/
theorem stake_double_settlement_bug :
    fireAccepts sys0 5 = true ∧
    battleState.foeUnit = Int.ofNat 5 ∧
    ((abortDuringFireTrace.profile.txHistory.filter
        (fun r => r.sessionId == some 1000 && (r.type == TxType.refund || r.type == TxType.win))).map
      (fun r => (r.type, r.amount))) = [(TxType.refund, 10), (TxType.win, 20)] ∧
    abortDuringFireTrace.profile.balance = 520 := by
  refine ⟨rfl, rfl, rfl, rfl⟩

/-!
## C4 — phase monotonicity
-/

/-- C4 counterexample: `GAME_RESET` (dispatched by `handleAbort` and by
the return-to-lobby buttons) maps a battle-phase state straight back to
`setup`, so the phase does regress under the reducer. -/
theorem phase_regress_cex :
    battleState.phase = GamePhase.battle ∧
    (gameReducer clock0 battleState .GAME_RESET).phase = GamePhase.setup :=
  ⟨rfl, rfl⟩

/-- C4 (amended): the phase never regresses EXCEPT under the
session-lifecycle actions that overwrite it wholesale (`GAME_INIT`,
`GAME_READY`, `BATTLE_BEGIN`, `GAME_RESTORE`, `GAME_RESET`); every other
action preserves the phase or advances it to `ended`. -/
theorem phase_monotone_outside_lifecycle (c : Clock) (s : GameState) (a : GameAction)
    (h : replacesPhase a = false) :
    phaseIdx s.phase ≤ phaseIdx (gameReducer c s a).phase := by
  have hend : ∀ t : GamePhase, phaseIdx t ≤ phaseIdx GamePhase.ended := by
    intro t; cases t <;> simp [phaseIdx]
  cases a <;> simp [replacesPhase] at h <;>
    simp only [gameReducer] <;> (try split) <;>
    first
      | (simp [appendLog]; done)
      | (simp [appendLog]; exact hend _)

/-- Witness for C4's amended theorem: `SHOT_APPLY` on the battle state. -/
theorem phase_monotone_outside_lifecycle_witness :
    phaseIdx battleState.phase ≤ phaseIdx (gameReducer clock0 battleState (.SHOT_APPLY 3 true)).phase :=
  phase_monotone_outside_lifecycle clock0 battleState (.SHOT_APPLY 3 true) (by decide)

/-!
## C5 — abort during an in-flight pipeline
-/

/-- C5 counterexample: with the pipeline in flight
(`zkBusy = true` right after `ZK_WITNESS_BEGIN`), `handleAbort` DOES
take effect: it resets the session to the blank game and appends a
refund for the in-flight session — the source has no busy/pipeline
guard on abort and the ABORT button stays enabled. -/
theorem abort_honored_mid_pipeline_cex :
    zkBusy (fireSeg1 clock0 5 sys0).game = true ∧
    (handleAbort clock0 "TXRFD" "t3" (fireSeg1 clock0 5 sys0)).game = blankGame ∧
    ((handleAbort clock0 "TXRFD" "t3" (fireSeg1 clock0 5 sys0)).profile.txHistory.map
      (fun r => r.type)) = [TxType.deposit, TxType.stake, TxType.refund] := by
  refine ⟨rfl, rfl, rfl⟩

/-- C5 (amended): abort is honored at ANY time, including while a
pipeline is in flight: whenever the stake is deducted and the session
has not ended, `handleAbort` refunds the stake, appends the refund
record, resets the session to the blank game, clears the busy flag and
deletes the snapshot — regardless of `zkProof` being in an in-flight
stage. -/
theorem abort_effective_even_mid_pipeline (c : Clock) (rid rts : String) (sys : System)
    (_hbusy : zkBusy sys.game = true) (hded : sys.game.stakeDeducted = true)
    (hend : sys.game.phase ≠ GamePhase.ended) :
    (handleAbort c rid rts sys).game = blankGame ∧
    (handleAbort c rid rts sys).busy = false ∧
    (handleAbort c rid rts sys).saved = none ∧
    (handleAbort c rid rts sys).profile.balance = sys.profile.balance + Int.ofNat sys.game.stake ∧
    (handleAbort c rid rts sys).profile.txHistory =
      sys.profile.txHistory ++
        [{ id := rid, type := TxType.refund, amount := sys.game.stake, ts := rts,
           status := TxStatus.confirmed,
           label := "Stake refund — aborted #" ++ toString sys.game.sid,
           sessionId := some sys.game.sid }] := by
  simp [handleAbort, hded, hend, sysDispatch, gameReducer, withTx, blankGame]

/-- Witness for C5's amended theorem: abort right after witness
generation began. -/
theorem abort_effective_even_mid_pipeline_witness :
    (handleAbort clock0 "TXRFD" "t3" (fireSeg1 clock0 5 sys0)).profile.balance =
      (fireSeg1 clock0 5 sys0).profile.balance + Int.ofNat (fireSeg1 clock0 5 sys0).game.stake :=
  (abort_effective_even_mid_pipeline clock0 "TXRFD" "t3" (fireSeg1 clock0 5 sys0)
    (by decide) (by decide) (by decide)).2.2.2.1

/-!
## C6 — single-flight guard
-/

/-- Helper: one step into a fire pipeline, the busy flag is set. -/
theorem fireSeg1_busy (c : Clock) (i : Nat) (sys : System) :
    (fireSeg1 c i sys).busy = true := rfl

/-- C6: while a pipeline is in flight, new Fire/Place commands are
silent no-ops: `canFire` is false whenever `zkBusy` holds, `handleFire`
and `handlePlace` reject when either `busyRef` or the state guard
fails, and a second Fire issued right after a first one began leaves
the system exactly as the first fire's opening segment left it — only
one ProofContext progression occurs. -/
theorem inflight_commands_are_noops (sys : System) (i j : Nat) (e : FireEnv) (c : Clock) :
    (zkBusy sys.game = true → canFire sys.game = false ∧ fireAccepts sys i = false) ∧
    (sys.busy = true → fireAccepts sys i = false ∧ placeAccepts sys = false) ∧
    fireAccepts (fireSeg1 c i sys) j = false ∧
    handleFireRun e j (fireSeg1 c i sys) = fireSeg1 c i sys := by
  have hseg : fireAccepts (fireSeg1 c i sys) j = false := by
    simp [fireAccepts, fireSeg1_busy]
  refine ⟨fun h => ⟨?_, ?_⟩, fun h => ⟨?_, ?_⟩, hseg, ?_⟩
  · simp [canFire, h]
  · simp [fireAccepts, canFire, h]
  · simp [fireAccepts, h]
  · simp [placeAccepts, h]
  · simp [handleFireRun, hseg]

/-- Witness for C6 on the in-flight system right after a fire began. -/
theorem inflight_commands_are_noops_witness :
    canFire (fireSeg1 clock0 5 sys0).game = false ∧
    fireAccepts (fireSeg1 clock0 5 sys0) 7 = false ∧
    placeAccepts (fireSeg1 clock0 5 sys0) = false ∧
    handleFireRun env0 7 (fireSeg1 clock0 5 sys0) = fireSeg1 clock0 5 sys0 :=
  ⟨((inflight_commands_are_noops (fireSeg1 clock0 5 sys0) 7 7 env0 clock0).1 (by decide)).1,
   ((inflight_commands_are_noops (fireSeg1 clock0 5 sys0) 7 7 env0 clock0).2.1 (by decide)).1,
   ((inflight_commands_are_noops (fireSeg1 clock0 5 sys0) 7 7 env0 clock0).2.1 (by decide)).2,
   (inflight_commands_are_noops sys0 5 7 env0 clock0).2.2.2⟩

/-!
## C7 — VERIFICATION_FAILURE handling
-/

/-- Helper: one reducer step with an action in `keepsFailure` leaves a
`VERIFICATION_FAILURE` context in the failure state. -/
theorem keepsFailure_preserves (c : Clock) (s : GameState) (a : GameAction)
    (hs : s.zkProof.state = ZKState.VERIFICATION_FAILURE)
    (ha : keepsFailure a = true) :
    (gameReducer c s a).zkProof.state = ZKState.VERIFICATION_FAILURE := by
  cases a <;> simp [keepsFailure] at ha <;>
    simp only [gameReducer] <;> (try split) <;> simp_all [appendLog]

/-- Helper: a whole trace of `keepsFailure` actions leaves a failed
context failed. -/
theorem keepsFailure_preserves_trace (l : List (Clock × GameAction)) (s : GameState)
    (hs : s.zkProof.state = ZKState.VERIFICATION_FAILURE)
    (hl : ∀ x ∈ l, keepsFailure x.2 = true) :
    (l.foldl (fun g x => gameReducer x.1 g x.2) s).zkProof.state = ZKState.VERIFICATION_FAILURE := by
  induction l generalizing s with
  | nil => exact hs
  | cons x xs ih =>
      simp only [List.foldl_cons]
      exact ih _ (keepsFailure_preserves x.1 s x.2 hs (hl x (by simp)))
        (fun y hy => hl y (List.mem_cons_of_mem x hy))

/-- C7 counterexample: from a `VERIFICATION_FAILURE` context, the
unguarded `ZK_PROOF_BEGIN` (neither `ZK_RESET` nor `ZK_WITNESS_BEGIN`)
moves the ProofContext to `PROOF_GENERATION`, so the failure state does
not persist against every action other than the two listed ones. -/
theorem verification_failure_overridden_cex :
    failState.zkProof.state = ZKState.VERIFICATION_FAILURE ∧
    keepsFailure .ZK_PROOF_BEGIN = false ∧
    (gameReducer clock0 failState .ZK_PROOF_BEGIN).zkProof.state = ZKState.PROOF_GENERATION :=
  ⟨rfl, rfl, rfl⟩

/-- C7 (amended): `ZK_VERIFY_FAILURE` surfaces the error, restores the
turn (`myTurn := true`) and puts the context into
`VERIFICATION_FAILURE`; the context then stays in the failure state
under any sequence of subsequent actions EXCEPT `ZK_RESET`,
`ZK_WITNESS_BEGIN`, the unguarded `ZK_PROOF_BEGIN`, and the
state-replacing `GAME_INIT` / `GAME_RESTORE` / `GAME_RESET` — there is
no automatic retry. -/
theorem verify_failure_surfaces_and_persists (c : Clock) (s : GameState) (m : String) :
    (gameReducer c s (.ZK_VERIFY_FAILURE m)).zkProof.state = ZKState.VERIFICATION_FAILURE ∧
    (gameReducer c s (.ZK_VERIFY_FAILURE m)).zkProof.errorMsg = m ∧
    (gameReducer c s (.ZK_VERIFY_FAILURE m)).myTurn = true ∧
    (∀ l : List (Clock × GameAction), (∀ x ∈ l, keepsFailure x.2 = true) →
      (l.foldl (fun g x => gameReducer x.1 g x.2)
        (gameReducer c s (.ZK_VERIFY_FAILURE m))).zkProof.state = ZKState.VERIFICATION_FAILURE) := by
  have h0 : (gameReducer c s (.ZK_VERIFY_FAILURE m)).zkProof.state = ZKState.VERIFICATION_FAILURE := by
    simp [gameReducer, appendLog]
  refine ⟨h0, by simp [gameReducer, appendLog], by simp [gameReducer, appendLog], ?_⟩
  intro l hl
  exact keepsFailure_preserves_trace l _ h0 hl

/-- Witness for C7 at the battle state followed by an (out-of-order,
hence harmless) `ZK_CIRCUIT_BEGIN`. -/
theorem verify_failure_surfaces_and_persists_witness :
    (gameReducer clock0 battleState (.ZK_VERIFY_FAILURE "bad proof")).zkProof.state =
      ZKState.VERIFICATION_FAILURE ∧
    ([(clock1, GameAction.ZK_CIRCUIT_BEGIN)].foldl (fun g x => gameReducer x.1 g x.2)
      (gameReducer clock0 battleState (.ZK_VERIFY_FAILURE "bad proof"))).zkProof.state =
      ZKState.VERIFICATION_FAILURE :=
  ⟨(verify_failure_surfaces_and_persists clock0 battleState "bad proof").1,
   (verify_failure_surfaces_and_persists clock0 battleState "bad proof").2.2.2
     [(clock1, .ZK_CIRCUIT_BEGIN)] (by decide)⟩

/-!
## C8 — fire resolution
-/

/-- C8: from any accepted battle fire at `index`, if `index` is the foe
unit the pipeline ends the session with the firer winning, marks the
foe-grid cell hit and credits exactly 2× the stake (one `win` ledger
record); if `index` is any other cell, the applied shot marks the cell
miss and the turn is with the opposing side (`myTurn = false`). -/
theorem fire_resolution_matches_spec (e : FireEnv) (sys : System) (index : Nat)
    (hacc : fireAccepts sys index = true) (hidx : index < sys.game.foeGrid.length) :
    ((index : Int) = sys.game.foeUnit →
      (handleFireRun e index sys).game.phase = GamePhase.ended ∧
      (handleFireRun e index sys).game.winner = some WinnerKind.you ∧
      (handleFireRun e index sys).game.foeGrid[index]? = some CellKind.hit ∧
      (handleFireRun e index sys).profile.balance =
        sys.profile.balance + Int.ofNat (sys.game.stake * 2) ∧
      (handleFireRun e index sys).profile.wins = sys.profile.wins + 1 ∧
      (handleFireRun e index sys).profile.txHistory.map (fun r => (r.type, r.amount, r.sessionId)) =
        sys.profile.txHistory.map (fun r => (r.type, r.amount, r.sessionId)) ++
          [(TxType.win, sys.game.stake * 2, some sys.game.sid)]) ∧
    ((index : Int) ≠ sys.game.foeUnit →
      (fireToShot e index false sys).game.foeGrid[index]? = some CellKind.miss ∧
      (fireToShot e index false sys).game.myTurn = false ∧
      handleFireRun e index sys =
        fireEnemySeg e.k11 e.k12 e.k13 e.overTx e.recId e.recTs sys.game.stake sys.game.sid e.aiPick
          (fireMissLog e.k10 (fireToShot e index false sys))) := by
  constructor
  · intro hhit
    have hb : ((index : Int) == sys.game.foeUnit) = true := by simp [hhit]
    have hrun : handleFireRun e index sys =
        fireWinSeg e.k9 e.overTx e.recId e.recTs sys.game.stake sys.game.sid
          (fireToShot e index true sys) := by
      simp only [handleFireRun, hacc, Bool.not_true, Bool.false_eq_true, if_false,
        Int.ofNat_eq_natCast, hb, if_true]
    obtain ⟨f1, f2, f3, f4, f5, f6, f7, f8, f9, f10⟩ := fireToShot_fields e index true sys
    obtain ⟨o1, o2, o3, _, _, _, _⟩ :=
      game_over_fields e.k9 (fireToShot e index true sys).game (some .you) e.overTx
    have hgame : (fireWinSeg e.k9 e.overTx e.recId e.recTs sys.game.stake sys.game.sid
        (fireToShot e index true sys)).game =
        gameReducer e.k9 (fireToShot e index true sys).game (.GAME_OVER (some .you) e.overTx) := rfl
    have hprof : (fireWinSeg e.k9 e.overTx e.recId e.recTs sys.game.stake sys.game.sid
        (fireToShot e index true sys)).profile =
        withTx e.recId e.recTs
          { (fireToShot e index true sys).profile with
            balance := (fireToShot e index true sys).profile.balance
              + Int.ofNat (sys.game.stake * 2)
            wins := (fireToShot e index true sys).profile.wins + 1 }
          .win (sys.game.stake * 2) .confirmed
          ("Win game #" ++ toString sys.game.sid ++ " (+" ++ toString (sys.game.stake * 2) ++ " XLM)")
          (some sys.game.sid) := rfl
    refine ⟨?_, ?_, ?_, ?_, ?_, ?_⟩
    · rw [hrun, hgame, o1]
    · rw [hrun, hgame, o2]
    · rw [hrun, hgame, o3, f2]
      simp only [if_pos rfl]
      exact List.getElem?_set_eq_of_lt CellKind.hit hidx
    · rw [hrun, hprof, f9]
      simp [withTx]
    · rw [hrun, hprof, f9]
      simp [withTx]
    · rw [hrun, hprof, f9]
      simp [withTx]
  · intro hmiss
    have hb : ((index : Int) == sys.game.foeUnit) = false := by
      simpa using hmiss
    obtain ⟨f1, f2, f3, f4, f5, f6, f7, f8, f9, f10⟩ := fireToShot_fields e index false sys
    refine ⟨?_, f3, ?_⟩
    · rw [f2]
      simpa using List.getElem?_set_eq_of_lt CellKind.miss hidx
    · simp only [handleFireRun, hacc, Bool.not_true, Bool.false_eq_true, if_false,
        Int.ofNat_eq_natCast, hb, if_true]

/-- Witness for C8: the hit case at the fixture session (stake 10, foe
unit 5 — the spec's own scenario) and the miss case at cell 7. -/
theorem fire_resolution_matches_spec_witness :
    (handleFireRun env0 5 sys0).game.winner = some WinnerKind.you ∧
    (handleFireRun env0 5 sys0).profile.balance =
      sys0.profile.balance + Int.ofNat (sys0.game.stake * 2) ∧
    (fireToShot env0 7 false sys0).game.foeGrid[7]? = some CellKind.miss :=
  ⟨((fire_resolution_matches_spec env0 sys0 5 (by decide) (by decide)).1 (by decide)).2.1,
   ((fire_resolution_matches_spec env0 sys0 5 (by decide) (by decide)).1 (by decide)).2.2.2.1,
   ((fire_resolution_matches_spec env0 sys0 7 (by decide) (by decide)).2 (by decide)).1⟩

/-!
## C9 — determinism of the reducer
-/

/-- C9 counterexample: the reducer reads the ambient clock, so two
evaluations at the same `(state, action)` pair but different instants
yield different states (here, differing `startedAt`): `gameReducer` is
not a function of `(state, action)` alone. -/
theorem reducer_clock_dependent_cex :
    clock0 ≠ clock1 ∧
    gameReducer clock0 blankGame (.ZK_WITNESS_BEGIN 0) ≠
      gameReducer clock1 blankGame (.ZK_WITNESS_BEGIN 0) := by
  exact ⟨by decide, by decide⟩

/-- C9 (amended): `gameReducer` is a pure, total, deterministic function
of `(clock, state, action)` — in this embedding it is a total Lean
function — and the clock reading influences ONLY the log entries and
the `startedAt`/`resolvedAt` timestamps: after erasing those, any two
clock readings give identical results. -/
theorem reducer_deterministic_modulo_clock (c₁ c₂ : Clock) (s : GameState) (a : GameAction) :
    eraseClock (gameReducer c₁ s a) = eraseClock (gameReducer c₂ s a) := by
  cases a <;> simp only [gameReducer] <;> (try split) <;>
    simp_all [eraseClock, appendLog, blankZK]

/-!
## C10 — parseVoice cell index bounds
-/

/-- C10 counterexample: `parseVoice` does not return at all on the
transcript "fire constructor 4": the regex group is `constructor`, the
object-literal lookup `NATO['constructor']` finds the inherited (truthy)
`Object.prototype.constructor`, so the falsy guard is skipped and
`colLetter.charCodeAt(0)` throws a TypeError — so it is not the case
that for every transcript a `cellIndex` is returned. -/
theorem parseVoice_throws_cex :
    parseVoice "fire constructor 4" 1 =
      Except.error "TypeError: colLetter.charCodeAt is not a function" := by
  rfl

/-- Helper for C10: whenever `parseVoiceWith` returns a command (does
not throw), the bounds hold — at ANY normalised transcript. -/
theorem parseVoiceWith_cellIndex_range (raw : String) (conf : Rat) (t : String)
    (cmd : VoiceCommand) (h : parseVoiceWith raw conf t = Except.ok cmd) :
    (cmd.cellIndex = -1 ∨ (0 ≤ cmd.cellIndex ∧ cmd.cellIndex ≤ 35)) ∧
    (cmd.action = VoiceAction.fire ∨ cmd.action = VoiceAction.place →
      0 ≤ cmd.cellIndex ∧ cmd.cellIndex ≤ 35) ∧
    (cmd.action = VoiceAction.abort ∨ cmd.action = VoiceAction.unknown →
      cmd.cellIndex = -1) := by
  simp only [parseVoiceWith] at h
  split at h
  · simp only [Except.ok.injEq] at h
    subst h
    simp
  · split at h
    · simp only [Except.ok.injEq] at h
      subst h
      simp
    · split at h
      · simp only [Except.ok.injEq] at h
        subst h
        simp
      · exact absurd h (by simp)
      · split at h
        · simp only [Except.ok.injEq] at h
          subst h
          simp
        · rename_i hguard
          simp only [Except.ok.injEq] at h
          subst h
          simp only [Bool.or_eq_true, decide_eq_true_eq, not_or, GRID,
            Int.ofNat_eq_natCast, Nat.cast_ofNat] at hguard ⊢
          refine ⟨Or.inr ⟨by omega, by omega⟩, fun _ => ⟨by omega, by omega⟩, ?_⟩
          intro hab
          rcases hab with hab | hab <;> (split at hab <;> simp_all)

/-- C10 (amended): `parseVoice` is not total — on a transcript whose
letter group is `constructor` (the one inherited `Object.prototype` key
matching `([a-z]+)`) it throws a TypeError instead of returning (see
the counterexample).  Whenever it DOES return a command, the bounds
hold: the `cellIndex` is either −1 or a valid 6×6 cell (0…35);
fire/place results always carry a valid cell, abort/unknown results
always carry −1. -/
theorem parseVoice_cellIndex_range (raw : String) (conf : Rat) (cmd : VoiceCommand)
    (h : parseVoice raw conf = Except.ok cmd) :
    (cmd.cellIndex = -1 ∨ (0 ≤ cmd.cellIndex ∧ cmd.cellIndex ≤ 35)) ∧
    (cmd.action = VoiceAction.fire ∨ cmd.action = VoiceAction.place →
      0 ≤ cmd.cellIndex ∧ cmd.cellIndex ≤ 35) ∧
    (cmd.action = VoiceAction.abort ∨ cmd.action = VoiceAction.unknown →
      cmd.cellIndex = -1) :=
  parseVoiceWith_cellIndex_range raw conf (normalizeTranscript raw) cmd h

/-- Witness for C10 on the documented example transcript
("fire alpha four" → fire at cell 18, i.e. A4). -/
theorem parseVoice_cellIndex_range_witness :
    (0 : Int) ≤ 18 ∧ (18 : Int) ≤ 35 :=
  (parseVoice_cellIndex_range "fire alpha four" 1
      { transcript := "fire alpha four", action := VoiceAction.fire, cellIndex := 18,
        coord := "A4", confidence := 1 }
      (by rfl)).2.1 (Or.inl (by decide))

end ZkFog
